import Mathlib

/-!
Shallow embedding of the TeensyThreads cooperative/preemptive threading kernel
(src/TeensyThreads.cpp), together with theorems settling the frozen claims
about its scheduler, thread lifecycle and mutex.

Machine integers of the C source (`unsigned int`, `uint32_t`) are modelled as
`Nat` with explicit reduction modulo 2^32 where the source's unsigned
wraparound matters.  Loops whose control flow depends on values produced by
the environment (the millisecond counter, the outcome of `try_lock`, another
thread's `flags` field) are modelled as recursion over a finite trace of the
observations the loop makes; `none` means the trace ended with the loop still
spinning.
-/

namespace TeensyThreads

/-- Thread state flags.  Modelled from the spec: the header declaring the flag
constants is not under src/; per the spec `flags` is one of
EMPTY, RUNNING, ENDED, SUSPENDED.  -/
inductive Flag where
  | EMPTY
  | RUNNING
  | ENDED
  | SUSPENDED
deriving DecidableEq, Repr

/-- Modelled from the spec: MAX_THREADS is a build-time capacity
("e.g. 8-16"); the header fixing it is not under src/.  We fix 8. -/
def MAX_THREADS : Nat := 8

/-- Scheduler activity state STOPPED.  The source's `Suspend()` constructor
writes the literal 0 into `currentActive`, so STOPPED = 0. -/
def STOPPED : Int := 0

/-- Modelled from the spec: STARTED is a scheduler activity state distinct
from STOPPED and FIRST_RUN (the header with its numeric value is not under
src/); the value is irrelevant except that it differs from -1 and 0. -/
def STARTED : Int := 1

/-- Modelled from the spec: FIRST_RUN is a scheduler activity state distinct
from STOPPED and STARTED (the header with its numeric value is not under
src/); the value is irrelevant except that it differs from -1, 0 and 1. -/
def FIRST_RUN : Int := 2

/-- 2^32, the modulus of the source's 32-bit unsigned arithmetic. -/
def U32 : Nat := 4294967296

/-- Unsigned 32-bit subtraction `a - b` (the value of the C expression when
`a` and `b` are uint32 values, i.e. (a - b) mod 2^32). -/
def usub32 (a b : Nat) : Nat := (a + U32 - b % U32) % U32

/-- One slot of the thread table (struct ThreadInfo).  Pointers (`stack`,
`sp`) are modelled as addresses in `Nat`, with 0 the null pointer.  The save
area is represented by its `lr` image, the only field the C core writes. -/
structure ThreadInfo where
  flags : Flag
  sp : Nat
  ticks : Nat
  priority : Nat
  stack : Nat
  my_stack : Bool
  stack_size : Nat
  save_lr : Nat
deriving DecidableEq, Repr

/-- Point update of the thread table at index `i`. -/
def updAt (f : Nat → ThreadInfo) (i : Nat) (v : ThreadInfo) : Nat → ThreadInfo :=
  fun j => if j = i then v else f j

/-- Global scheduler state: the `Threads` object's fields together with the
`extern "C"` globals consumed by the assembly trampoline.  The thread table
is a total map; the source only ever indexes it below MAX_THREADS. -/
structure State where
  thread : Nat → ThreadInfo
  current_thread : Nat
  thread_count : Int
  currentActive : Int
  currentCount : Nat
  currentSP : Nat
  currentMSP : Nat
  DEFAULT_TICKS : Nat
  DEFAULT_STACK_SIZE : Nat

/-- Threads::stop(): records the old `currentActive` and sets it to STOPPED.
Returns the new state and the old activity value. -/
def stop (s : State) : State × Int :=
  ({ s with currentActive := STOPPED }, s.currentActive)

/-- Threads::start(prev_state): a prev_state of -1 (the default argument)
means STARTED; returns the new state and the old activity value. -/
def start (s : State) (prev_state : Int) : State × Int :=
  ({ s with currentActive := if prev_state = -1 then STARTED else prev_state },
   s.currentActive)

/-- Threads::setPriority(id, level): an id of -1 means the current thread;
otherwise `thread[id].priority = level`.  (The source does not bounds-check
`id`; the claims only exercise it at -1 or a valid slot.) -/
def setPriority (s : State) (id : Int) (level : Nat) : State :=
  let i : Nat := if id = -1 then s.current_thread else id.toNat
  { s with thread := updAt s.thread i { s.thread i with priority := level } }

/-- Threads::restart(id) for an in-range id: `thread[id].flags = RUNNING`. -/
def restartT (s : State) (id : Nat) : State :=
  { s with thread := updAt s.thread id { s.thread id with flags := Flag.RUNNING } }

/-- Threads::suspendT(id) for an in-range id: `thread[id].flags = SUSPENDED`. -/
def suspendT (s : State) (id : Nat) : State :=
  { s with thread := updAt s.thread id { s.thread id with flags := Flag.SUSPENDED } }

/-- Threads::setTimeSlice(id, ticks): stores `ticks - 1` (32-bit unsigned
subtraction, since the parameter is `unsigned int`). -/
def setTimeSlice (s : State) (id : Nat) (ticks : Nat) : State :=
  { s with thread := updAt s.thread id { s.thread id with ticks := usub32 ticks 1 } }

/-- Threads::setDefaultTimeSlice(ticks): stores `ticks - 1` (32-bit unsigned
subtraction) into the creation default. -/
def setDefaultTimeSlice (s : State) (ticks : Nat) : State :=
  { s with DEFAULT_TICKS := usub32 ticks 1 }

/-- The hardware exception frame synthesized by loadstack
(struct interrupt_stack_t): r0-r3, r12, lr, pc, xpsr. -/
structure interrupt_stack_t where
  r0 : Nat
  r1 : Nat
  r2 : Nat
  r3 : Nat
  r12 : Nat
  lr : Nat
  pc : Nat
  xpsr : Nat
deriving DecidableEq, Repr

/-- sizeof(interrupt_stack_t): 8 registers of 4 bytes.  Modelled from the
spec: the struct itself is declared in the header (not under src/); the spec
describes it as the exact 8-word frame the exception-return mechanism pops. -/
def SIZEOF_FRAME : Nat := 32

/-- Threads::loadstack(p, arg, stackaddr, stack_size): writes the synthetic
exception frame at stackaddr + stack_size - sizeof(frame) - 8 and returns
that address as the new sp, paired here with the frame contents.
`del_process_addr` stands for the address of Threads::del_process, which the
source stores into the frame's lr. -/
def loadstack (del_process_addr : Nat) (p arg stackaddr stack_size : Nat) :
    Nat × interrupt_stack_t :=
  let process_frame_addr := stackaddr + stack_size - SIZEOF_FRAME - 8
  (process_frame_addr,
   { r0 := arg, r1 := 0, r2 := 0, r3 := 0, r12 := 0,
     lr := del_process_addr, pc := p, xpsr := 0x1000000 })

/-- The priority-scan loop of Threads::getNextThread (source lines 81-92):
`for (i = 0; i < MAX_THREADS; i++)` looking for a slot with a non-zero
priority boost.  Note that the source's guard tests
`thread[current_thread].flags == RUNNING` -- the CURRENT thread, not the
candidate `i` -- and `current_thread` is unchanged until the loop breaks. -/
def prioScan (th : Nat → ThreadInfo) (ct : Nat) (i : Nat) : Option Nat :=
  if i < MAX_THREADS then
    if (th ct).flags = Flag.RUNNING ∧ (th i).priority ≠ 0 then some i
    else prioScan th ct (i + 1)
  else none
termination_by MAX_THREADS - i

/-- The round-robin loop of Threads::getNextThread (source lines 97-104),
entered with the already-incremented index `j = current_thread + 1`: on
reaching MAX_THREADS it selects slot 0 unconditionally and stops; otherwise
it stops at the first slot whose flags are RUNNING. -/
def rrScan (th : Nat → ThreadInfo) (j : Nat) : Nat :=
  if j < MAX_THREADS then
    if (th j).flags = Flag.RUNNING then j else rrScan th (j + 1)
  else 0
termination_by MAX_THREADS - j

/-- Threads::getNextThread(): saves the outgoing sp, runs the priority scan
(clearing the chosen boost and loading that slot's ticks), falling back to
the round-robin scan, then publishes the trampoline globals. -/
def getNextThread (s : State) : State :=
  let th0 := updAt s.thread s.current_thread
               { s.thread s.current_thread with sp := s.currentSP }
  match prioScan th0 s.current_thread 0 with
  | some i =>
      let th1 := updAt th0 i { th0 i with priority := 0 }
      { s with thread := th1,
               current_thread := i,
               currentCount := (th0 i).ticks,
               currentMSP := if i = 0 then 1 else 0,
               currentSP := (th1 i).sp }
  | none =>
      let nt := rrScan th0 (s.current_thread + 1)
      { s with thread := th0,
               current_thread := nt,
               currentCount := (th0 nt).ticks,
               currentMSP := if nt = 0 then 1 else 0,
               currentSP := (th0 nt).sp }

/-- The slot-search loop of Threads::addThread (source line 287): the first
`i` in 1..MAX_THREADS-1 with flags ENDED or EMPTY. -/
def findFree (th : Nat → ThreadInfo) (i : Nat) : Option Nat :=
  if i < MAX_THREADS then
    if (th i).flags = Flag.ENDED ∨ (th i).flags = Flag.EMPTY then some i
    else findFree th (i + 1)
  else none
termination_by MAX_THREADS - i

/-- Result of addThread: the post state and the returned id (-1 on failure). -/
structure AddResult where
  state : State
  ret : Int

/-- Threads::addThread(p, arg, stack_size, stack).  `alloc` stands for the
address returned by `new uint8_t[stack_size]` when the caller passed a null
stack, and `del_process_addr` for the address of Threads::del_process used
by loadstack.  On success: free slot reinitialized, flags RUNNING, ticks from
DEFAULT_TICKS, priority 0, save.lr = 0xFFFFFFF9, currentActive restored to
the pre-call state and then forced to STARTED (via start()) if that state was
STARTED or FIRST_RUN.  On exhaustion: returns -1, and start() is called only
if the pre-call state was STARTED. -/
def addThread (s : State) (p arg : Nat) (stack_size : Int) (stack : Nat)
    (alloc : Nat) (del_process_addr : Nat) : AddResult :=
  let s0p := stop s
  let s0 := s0p.1
  let old_state := s0p.2
  let ssize : Nat := if stack_size = -1 then s0.DEFAULT_STACK_SIZE
                     else stack_size.toNat
  match findFree s0.thread 1 with
  | some i =>
      let stkmy : Nat × Bool := if stack = 0 then (alloc, true) else (stack, false)
      let psp := (loadstack del_process_addr p arg stkmy.1 ssize).1
      let ti : ThreadInfo :=
        { flags := Flag.RUNNING, sp := psp, ticks := s0.DEFAULT_TICKS,
          priority := 0, stack := stkmy.1, my_stack := stkmy.2,
          stack_size := ssize, save_lr := 0xFFFFFFF9 }
      let s1 := { s0 with thread := updAt s0.thread i ti,
                          currentActive := old_state,
                          thread_count := s0.thread_count + 1 }
      let s2 := if old_state = STARTED ∨ old_state = FIRST_RUN
                then (start s1 (-1)).1 else s1
      ⟨s2, (i : Int)⟩
  | none =>
      let s1 := if old_state = STARTED then (start s0 (-1)).1 else s0
      ⟨s1, -1⟩

/-- Mutex state: `state` is the lock bit (0/1), `waitthread` the parked
waiter's slot (-1 if none), `waitcount` the tick countdown captured when the
waiter parked. -/
structure MutexState where
  state : Nat
  waitthread : Int
  waitcount : Nat
deriving DecidableEq, Repr

/-- Threads::Mutex::try_lock(): under stop()/start(p), take the lock if free.
Returns the new scheduler state, the new mutex state, and the int result. -/
def try_lock (s : State) (m : MutexState) : State × MutexState × Nat :=
  let sp := stop s
  if m.state = 0 then
    ((start sp.1 sp.2).1, { m with state := 1 }, 1)
  else
    ((start sp.1 sp.2).1, m, 0)

/-- Result of Mutex::unlock: post scheduler state, post mutex state, the
returned int, and whether yield_and_start was invoked (the SVC that sets
currentActive = STARTED and dispatches immediately). -/
structure UnlockResult where
  threads : State
  mutex : MutexState
  ret : Nat
  yielded : Bool

/-- Threads::Mutex::unlock() (source lines 467-483): under stop(), if locked
then clear the lock; if a waiter is parked (waitthread >= 0), apply its saved
waitcount as a priority boost, restart it, clear waitthread and invoke
yield_and_start (which sets currentActive = STARTED); in every other case
fall through to start(p).  Always returns 1. -/
def unlock (s : State) (m : MutexState) : UnlockResult :=
  let sp := stop s
  let s0 := sp.1
  let p := sp.2
  if m.state = 1 then
    if m.waitthread ≥ 0 then
      let s1 := setPriority s0 m.waitthread m.waitcount
      let s2 := restartT s1 m.waitthread.toNat
      let m1 : MutexState := { state := 0, waitthread := -1, waitcount := m.waitcount }
      ⟨{ s2 with currentActive := STARTED }, m1, 1, true⟩
    else
      ⟨(start s0 p).1, { m with state := 0 }, 1, false⟩
  else
    ⟨(start s0 p).1, m, 1, false⟩

/-- The blocking loop of Threads::Mutex::lock (source lines 440-451) over a
trace of per-iteration observations: each iteration observes the current
`systick_millis_count` and whether its `try_lock` succeeded (the lock is
shared with other threads, so its availability is an environment input).
The iteration order is the source's: retry `try_lock` first; then, if
timeout_ms is non-zero and the 32-bit elapsed time exceeds it, return 0;
otherwise park/yield and loop.  `none` means the trace ended with the
thread still blocked. -/
def lockLoop (timeout_ms start : Nat) : List (Nat × Bool) → Option Nat
  | [] => none
  | (now, acq) :: rest =>
      if acq then some 1
      else if timeout_ms ≠ 0 ∧ usub32 now start > timeout_ms then some 0
      else lockLoop timeout_ms start rest

/-- Threads::Mutex::lock(timeout_ms): the fast-path try_lock outcome is
`firstTry`; on failure the blocking loop runs over the observation trace. -/
def lockSim (firstTry : Bool) (timeout_ms start : Nat)
    (trace : List (Nat × Bool)) : Option Nat :=
  if firstTry then some 1 else lockLoop timeout_ms start trace

/-- Stated from the spec's words, for comparison with `lockLoop`: "the
deadline passes without acquisition" -- some iteration observes the elapsed
time beyond timeout_ms, every iteration up to and including it having failed
to acquire the lock. -/
def deadlinePassesUnacquired (timeout_ms start : Nat) : List (Nat × Bool) → Bool
  | [] => false
  | (now, acq) :: rest =>
      !acq && (decide (usub32 now start > timeout_ms)
               || deadlinePassesUnacquired timeout_ms start rest)

/-- Stated from the spec's words, for comparison with `lockLoop`: the mutex
is acquired -- some iteration's try_lock succeeds, every earlier iteration
having failed within the deadline (or with the deadline disabled). -/
def acquiresLock (timeout_ms start : Nat) : List (Nat × Bool) → Bool
  | [] => false
  | (now, acq) :: rest =>
      acq || (decide (timeout_ms = 0 ∨ usub32 now start ≤ timeout_ms)
              && acquiresLock timeout_ms start rest)

/-- The spin-yield loop of Threads::wait (source lines 334-339) over a trace
of per-iteration observations of (millis(), thread[id].flags).  The source
order: the deadline test runs BEFORE the flags of the target are read; the
loop exits with -1 as soon as timeout_ms is non-zero and the 32-bit elapsed
time exceeds it, and with `id` when the flags observed within the deadline
differ from RUNNING.  `none` means the trace ended with the loop still
spinning. -/
def waitLoop (id : Int) (timeout_ms start : Nat) : List (Nat × Flag) → Option Int
  | [] => none
  | (now, f) :: rest =>
      if timeout_ms ≠ 0 ∧ usub32 now start > timeout_ms then some (-1)
      else if f ≠ Flag.RUNNING then some id
      else waitLoop id timeout_ms start rest

/-- Characterization of the timeout exit of `waitLoop` (code order): some
iteration observes the deadline exceeded, every earlier iteration having
observed RUNNING within the deadline. -/
def waitTimesOut (timeout_ms start : Nat) : List (Nat × Flag) → Bool
  | [] => false
  | (now, f) :: rest =>
      decide (usub32 now start > timeout_ms)
      || (decide (f = Flag.RUNNING) && waitTimesOut timeout_ms start rest)

/-- Characterization of the success exit of `waitLoop`: some iteration within
the deadline observes flags different from RUNNING, every earlier iteration
having observed RUNNING within the deadline. -/
def waitSucceeds (timeout_ms start : Nat) : List (Nat × Flag) → Bool
  | [] => false
  | (now, f) :: rest =>
      decide (timeout_ms = 0 ∨ usub32 now start ≤ timeout_ms)
      && (decide (f ≠ Flag.RUNNING) || waitSucceeds timeout_ms start rest)

/-! ## Helper lemmas -/

theorem usub32_one (t : Nat) (h1 : 1 ≤ t) (h2 : t < U32) : usub32 t 1 = t - 1 := by
  unfold usub32 U32
  unfold U32 at h2
  omega

theorem updAt_same (f : Nat → ThreadInfo) (i : Nat) (v : ThreadInfo) :
    updAt f i v i = v := by
  simp [updAt]

theorem updAt_other (f : Nat → ThreadInfo) (i j : Nat) (v : ThreadInfo)
    (h : j ≠ i) : updAt f i v j = f j := by
  simp [updAt, h]

/-- A sample thread-table entry used by concrete witness states. -/
def baseInfo : ThreadInfo :=
  { flags := Flag.EMPTY, sp := 0, ticks := 0, priority := 0,
    stack := 0, my_stack := false, stack_size := 0, save_lr := 0 }

/-- A sample scheduler state used by concrete witness states: slot 0 RUNNING,
all other slots EMPTY. -/
def baseState : State :=
  { thread := fun i => if i = 0 then { baseInfo with flags := Flag.RUNNING, ticks := 9 }
                       else baseInfo,
    current_thread := 0, thread_count := 1, currentActive := STOPPED,
    currentCount := 9, currentSP := 0, currentMSP := 1,
    DEFAULT_TICKS := 9, DEFAULT_STACK_SIZE := 1024 }

/-- The sp-saving write at the top of getNextThread changes only the sp
field of the current slot: flags, priority and ticks of every slot are
unchanged. -/
theorem updAt_sp_fields (th : Nat → ThreadInfo) (ct v j : Nat) :
    ((updAt th ct { th ct with sp := v }) j).flags = (th j).flags ∧
    ((updAt th ct { th ct with sp := v }) j).priority = (th j).priority ∧
    ((updAt th ct { th ct with sp := v }) j).ticks = (th j).ticks := by
  unfold updAt
  by_cases h : j = ct
  · subst h; simp
  · simp [h]

/-- If no slot has a pending boost, the priority scan finds nothing. -/
theorem prioScan_none (th : Nat → ThreadInfo) (ct : Nat)
    (h : ∀ i, i < MAX_THREADS → (th i).priority = 0) :
    ∀ j, prioScan th ct j = none := by
  have key : ∀ d j, MAX_THREADS - j ≤ d → prioScan th ct j = none := by
    intro d
    induction d with
    | zero =>
        intro j hj
        rw [prioScan]
        have hnj : ¬ j < MAX_THREADS := by omega
        simp [hnj]
    | succ d ih =>
        intro j hj
        rw [prioScan]
        by_cases hjm : j < MAX_THREADS
        · have hpj := h j hjm
          simp [hjm, hpj]
          exact ih (j + 1) (by omega)
        · simp [hjm]
  intro j
  exact key MAX_THREADS j (by omega)

/-- If the scan gate holds (the current thread is RUNNING) and `id` is the
first slot with a pending boost, the priority scan returns `id`. -/
theorem prioScan_first (th : Nat → ThreadInfo) (ct : Nat) (id : Nat)
    (hid : id < MAX_THREADS)
    (hrun : (th ct).flags = Flag.RUNNING)
    (hp : (th id).priority ≠ 0)
    (hbelow : ∀ i, i < id → (th i).priority = 0) :
    prioScan th ct 0 = some id := by
  have key : ∀ d j, id - j ≤ d → j ≤ id → prioScan th ct j = some id := by
    intro d
    induction d with
    | zero =>
        intro j hj hle
        have hje : j = id := by omega
        subst hje
        rw [prioScan]
        simp [hid, hrun, hp]
    | succ d ih =>
        intro j hj hle
        by_cases hjid : j = id
        · subst hjid
          rw [prioScan]
          simp [hid, hrun, hp]
        · have hjlt : j < id := by omega
          have hjm : j < MAX_THREADS := by omega
          have hpj := hbelow j hjlt
          rw [prioScan]
          simp [hjm, hpj]
          exact ih (j + 1) (by omega) (by omega)
  exact key id 0 (by omega) (by omega)

/-- Characterization of the round-robin scan from any start index: either it
stops at the first RUNNING slot at or after the start, or no slot from the
start up to MAX_THREADS is RUNNING and it wraps to slot 0. -/
theorem rrScan_spec (th : Nat → ThreadInfo) (j : Nat) :
    ((th (rrScan th j)).flags = Flag.RUNNING ∧ j ≤ rrScan th j ∧
      rrScan th j < MAX_THREADS ∧
      ∀ i, j ≤ i → i < rrScan th j → (th i).flags ≠ Flag.RUNNING)
    ∨ (rrScan th j = 0 ∧
       ∀ i, j ≤ i → i < MAX_THREADS → (th i).flags ≠ Flag.RUNNING) := by
  have key : ∀ d j, MAX_THREADS - j ≤ d →
      (((th (rrScan th j)).flags = Flag.RUNNING ∧ j ≤ rrScan th j ∧
        rrScan th j < MAX_THREADS ∧
        ∀ i, j ≤ i → i < rrScan th j → (th i).flags ≠ Flag.RUNNING)
      ∨ (rrScan th j = 0 ∧
         ∀ i, j ≤ i → i < MAX_THREADS → (th i).flags ≠ Flag.RUNNING)) := by
    intro d
    induction d with
    | zero =>
        intro j hj
        have hnj : ¬ j < MAX_THREADS := by omega
        have heq : rrScan th j = 0 := by
          rw [rrScan]; simp [hnj]
        refine Or.inr ⟨heq, fun i h1 h2 => absurd h2 (by omega)⟩
    | succ d ih =>
        intro j hj
        by_cases hjm : j < MAX_THREADS
        · by_cases hr : (th j).flags = Flag.RUNNING
          · have heq : rrScan th j = j := by
              rw [rrScan]; simp [hjm, hr]
            rw [heq]
            exact Or.inl ⟨hr, Nat.le_refl j, hjm,
              fun i h1 h2 => absurd (Nat.lt_of_le_of_lt h1 h2) (by omega)⟩
          · have heq : rrScan th j = rrScan th (j + 1) := by
              rw [rrScan]; simp [hjm, hr]
            rw [heq]
            rcases ih (j + 1) (by omega) with hl | hrr
            · refine Or.inl ⟨hl.1, by omega, hl.2.2.1, fun i h1 h2 => ?_⟩
              by_cases hij : i = j
              · subst hij; exact hr
              · exact hl.2.2.2 i (by omega) h2
            · refine Or.inr ⟨hrr.1, fun i h1 h2 => ?_⟩
              by_cases hij : i = j
              · subst hij; exact hr
              · exact hrr.2 i (by omega) h2
        · have heq : rrScan th j = 0 := by
            rw [rrScan]; simp [hjm]
          exact Or.inr ⟨heq, fun i h1 h2 => absurd h2 (by omega)⟩
  exact key MAX_THREADS j (by omega)

/-- If no slot in 1..MAX_THREADS-1 is free, the addThread slot search fails. -/
theorem findFree_none (th : Nat → ThreadInfo)
    (h : ∀ i, 1 ≤ i → i < MAX_THREADS →
      (th i).flags ≠ Flag.ENDED ∧ (th i).flags ≠ Flag.EMPTY) :
    findFree th 1 = none := by
  have key : ∀ d j, 1 ≤ j → MAX_THREADS - j ≤ d → findFree th j = none := by
    intro d
    induction d with
    | zero =>
        intro j h1 hj
        rw [findFree]
        have hnj : ¬ j < MAX_THREADS := by omega
        simp [hnj]
    | succ d ih =>
        intro j h1 hj
        rw [findFree]
        by_cases hjm : j < MAX_THREADS
        · have hv := h j h1 hjm
          simp [hjm, hv.1, hv.2]
          exact ih (j + 1) (by omega) (by omega)
        · simp [hjm]
  exact key MAX_THREADS 1 (by omega) (by omega)

/-- If `id` is the lowest-indexed free slot in 1..MAX_THREADS-1, the
addThread slot search returns it. -/
theorem findFree_first (th : Nat → ThreadInfo) (id : Nat)
    (hid1 : 1 ≤ id) (hid : id < MAX_THREADS)
    (hfree : (th id).flags = Flag.ENDED ∨ (th id).flags = Flag.EMPTY)
    (hbelow : ∀ i, 1 ≤ i → i < id →
      (th i).flags ≠ Flag.ENDED ∧ (th i).flags ≠ Flag.EMPTY) :
    findFree th 1 = some id := by
  have key : ∀ d j, 1 ≤ j → id - j ≤ d → j ≤ id → findFree th j = some id := by
    intro d
    induction d with
    | zero =>
        intro j h1 hj hle
        have hje : j = id := by omega
        subst hje
        rw [findFree]
        simp [hid, hfree]
    | succ d ih =>
        intro j h1 hj hle
        by_cases hjid : j = id
        · subst hjid
          rw [findFree]
          simp [hid, hfree]
        · have hjlt : j < id := by omega
          have hjm : j < MAX_THREADS := by omega
          have hv := hbelow j h1 hjlt
          rw [findFree]
          simp [hjm, hv.1, hv.2]
          exact ih (j + 1) (by omega) (by omega) (by omega)
  exact key id 1 (by omega) (by omega) (by omega)

/-- A setPriority write changes only the priority field of the target slot. -/
theorem updAt_priority_fields (th : Nat → ThreadInfo) (i k j : Nat) :
    ((updAt th i { th i with priority := k }) j).flags = (th j).flags ∧
    ((updAt th i { th i with priority := k }) j).ticks = (th j).ticks ∧
    ((updAt th i { th i with priority := k }) j).priority
      = (if j = i then k else (th j).priority) := by
  unfold updAt
  by_cases h : j = i
  · subst h; simp
  · simp [h]

/-- getNextThread when the priority scan selects slot `i`. -/
theorem getNextThread_prio (s : State) (i : Nat)
    (h : prioScan
      (updAt s.thread s.current_thread { s.thread s.current_thread with sp := s.currentSP })
      s.current_thread 0 = some i) :
    getNextThread s =
      { s with
          thread := updAt
            (updAt s.thread s.current_thread { s.thread s.current_thread with sp := s.currentSP }) i
            { (updAt s.thread s.current_thread { s.thread s.current_thread with sp := s.currentSP }) i
                with priority := 0 },
          current_thread := i,
          currentCount := ((updAt s.thread s.current_thread
            { s.thread s.current_thread with sp := s.currentSP }) i).ticks,
          currentMSP := if i = 0 then 1 else 0,
          currentSP := ((updAt
            (updAt s.thread s.current_thread { s.thread s.current_thread with sp := s.currentSP }) i
            { (updAt s.thread s.current_thread { s.thread s.current_thread with sp := s.currentSP }) i
                with priority := 0 }) i).sp } := by
  simp only [getNextThread]
  rw [h]

/-- getNextThread when the priority scan comes up empty: round-robin. -/
theorem getNextThread_rr (s : State)
    (h : prioScan
      (updAt s.thread s.current_thread { s.thread s.current_thread with sp := s.currentSP })
      s.current_thread 0 = none) :
    getNextThread s =
      { s with
          thread := updAt s.thread s.current_thread
            { s.thread s.current_thread with sp := s.currentSP },
          current_thread := rrScan
            (updAt s.thread s.current_thread { s.thread s.current_thread with sp := s.currentSP })
            (s.current_thread + 1),
          currentCount := ((updAt s.thread s.current_thread
              { s.thread s.current_thread with sp := s.currentSP })
            (rrScan (updAt s.thread s.current_thread
              { s.thread s.current_thread with sp := s.currentSP }) (s.current_thread + 1))).ticks,
          currentMSP := if rrScan (updAt s.thread s.current_thread
              { s.thread s.current_thread with sp := s.currentSP }) (s.current_thread + 1) = 0
            then 1 else 0,
          currentSP := ((updAt s.thread s.current_thread
              { s.thread s.current_thread with sp := s.currentSP })
            (rrScan (updAt s.thread s.current_thread
              { s.thread s.current_thread with sp := s.currentSP }) (s.current_thread + 1))).sp } := by
  simp only [getNextThread]
  rw [h]

/-! ## C6: stack bootstrap frame layout -/

/-- C6: loadstack(entry, arg, base, size) writes the synthetic exception
frame at base + size - sizeof(frame) - 8 with r0 = arg, r1 = r2 = r3 = 0,
r12 = 0, lr = the address of del_process, pc = entry, xpsr = 0x1000000, and
returns that frame's bottom (lowest) address as the sp. -/
theorem loadstack_frame_layout (del p arg base size : Nat)
    (h : SIZEOF_FRAME + 8 ≤ size) :
    (loadstack del p arg base size).1 = base + size - SIZEOF_FRAME - 8 ∧
    (loadstack del p arg base size).1 + (SIZEOF_FRAME + 8) = base + size ∧
    (loadstack del p arg base size).2.r0 = arg ∧
    (loadstack del p arg base size).2.r1 = 0 ∧
    (loadstack del p arg base size).2.r2 = 0 ∧
    (loadstack del p arg base size).2.r3 = 0 ∧
    (loadstack del p arg base size).2.r12 = 0 ∧
    (loadstack del p arg base size).2.lr = del ∧
    (loadstack del p arg base size).2.pc = p ∧
    (loadstack del p arg base size).2.xpsr = 0x1000000 := by
  unfold SIZEOF_FRAME at h
  refine ⟨rfl, ?_, rfl, rfl, rfl, rfl, rfl, rfl, rfl, rfl⟩
  simp only [loadstack, SIZEOF_FRAME]
  omega

/-- Witness for C6 at concrete inputs. -/
theorem loadstack_frame_layout_witness :
    SIZEOF_FRAME + 8 ≤ 128 ∧
    ((loadstack 7 100 200 1000 128).1 = 1088 ∧
     (loadstack 7 100 200 1000 128).2.r0 = 200) := by
  have h : SIZEOF_FRAME + 8 ≤ 128 := by decide
  have := loadstack_frame_layout 7 100 200 1000 128 h
  exact ⟨h, this.1.trans (by decide), this.2.2.1⟩

/-! ## C8: tick count off-by-one storage -/

/-- C8: setTimeSlice(id, t) stores t - 1 into thread[id].ticks, and
setDefaultTimeSlice(t) stores t - 1 into the creation default DEFAULT_TICKS,
which addThread then copies into every newly created thread's ticks. -/
theorem time_slice_off_by_one (s : State) (id t : Nat)
    (h1 : 1 ≤ t) (h2 : t < U32) :
    ((setTimeSlice s id t).thread id).ticks = t - 1 ∧
    (setDefaultTimeSlice s t).DEFAULT_TICKS = t - 1 ∧
    (∀ p arg ssz stk al del,
      0 ≤ (addThread (setDefaultTimeSlice s t) p arg ssz stk al del).ret →
      ((addThread (setDefaultTimeSlice s t) p arg ssz stk al del).state.thread
        (addThread (setDefaultTimeSlice s t) p arg ssz stk al del).ret.toNat).ticks
        = t - 1) := by
  refine ⟨?_, ?_, ?_⟩
  · simp [setTimeSlice, updAt, usub32_one t h1 h2]
  · simp [setDefaultTimeSlice, usub32_one t h1 h2]
  · intro p arg ssz stk al del hret
    unfold addThread at *
    rcases hf : findFree (stop (setDefaultTimeSlice s t)).1.thread 1 with _ | i
    · simp [hf] at hret
    · simp only [hf] at *
      split
      · simp [start, stop, updAt, setDefaultTimeSlice, usub32_one t h1 h2]
      · simp [start, stop, updAt, setDefaultTimeSlice, usub32_one t h1 h2]

/-- Witness for C8 at concrete inputs. -/
theorem time_slice_off_by_one_witness :
    1 ≤ 5 ∧ 5 < U32 ∧
    ((setTimeSlice baseState 2 5).thread 2).ticks = 4 ∧
    (setDefaultTimeSlice baseState 5).DEFAULT_TICKS = 4 := by
  have h1 : 1 ≤ 5 := by decide
  have h2 : 5 < U32 := by decide
  have h := time_slice_off_by_one baseState 2 5 h1 h2
  exact ⟨h1, h2, h.1, h.2.1⟩

/-! ## C3 and C10: mutex unlock -/

/-- C3: Mutex::unlock on a locked mutex releases the lock; if a waiter is
parked (waitthread >= 0) its saved waitcount is applied as a one-shot
priority boost on the waiter's slot, the waiter's flags are set to RUNNING,
waitthread is reset to -1 and yield_and_start dispatches immediately; with
no waiter parked the critical section is exited normally, restoring the
prior scheduler activity state. -/
theorem mutex_unlock_wake_path (s : State) (m : MutexState)
    (hlocked : m.state = 1) (hact : s.currentActive ≠ -1) :
    (unlock s m).mutex.state = 0 ∧
    (m.waitthread ≥ 0 →
      ((unlock s m).threads.thread m.waitthread.toNat).priority = m.waitcount ∧
      ((unlock s m).threads.thread m.waitthread.toNat).flags = Flag.RUNNING ∧
      (unlock s m).mutex.waitthread = -1 ∧
      (unlock s m).yielded = true ∧
      (unlock s m).threads.currentActive = STARTED) ∧
    (m.waitthread < 0 →
      (unlock s m).yielded = false ∧
      (unlock s m).threads.currentActive = s.currentActive ∧
      (unlock s m).threads.thread = s.thread ∧
      (unlock s m).mutex.waitthread = m.waitthread) := by
  by_cases hw : m.waitthread ≥ 0
  · have hne : ¬ (m.waitthread = -1) := by omega
    refine ⟨?_, fun _ => ?_, fun hlt => absurd hw (by omega)⟩
    · simp [unlock, stop, start, hlocked, hw]
    · simp [unlock, stop, start, hlocked, hw, setPriority, restartT, hne,
        updAt_same, updAt]
  · have hlt : m.waitthread < 0 := by omega
    refine ⟨?_, fun hge => absurd hge hw, fun _ => ?_⟩
    · simp [unlock, stop, start, hlocked, hw]
    · simp [unlock, stop, start, hlocked, hw, hact]

/-- Witness for C3 at concrete inputs. -/
theorem mutex_unlock_wake_path_witness :
    (({ state := 1, waitthread := 4, waitcount := 6 } : MutexState).state = 1 ∧
     ({ baseState with currentActive := STARTED } : State).currentActive ≠ -1) ∧
    ((unlock { baseState with currentActive := STARTED }
        { state := 1, waitthread := 4, waitcount := 6 }).mutex.state = 0 ∧
     ((unlock { baseState with currentActive := STARTED }
        { state := 1, waitthread := 4, waitcount := 6 }).threads.thread 4).priority = 6 ∧
     ((unlock { baseState with currentActive := STARTED }
        { state := 1, waitthread := 4, waitcount := 6 }).threads.thread 4).flags
        = Flag.RUNNING ∧
     (unlock { baseState with currentActive := STARTED }
        { state := 1, waitthread := 4, waitcount := 6 }).yielded = true) := by
  have h := mutex_unlock_wake_path { baseState with currentActive := STARTED }
    { state := 1, waitthread := 4, waitcount := 6 } rfl (by decide)
  have h2 := h.2.1 (by decide)
  exact ⟨⟨rfl, by decide⟩, h.1, h2.1, h2.2.1, h2.2.2.2.1⟩

/-- C10: Mutex::unlock always returns 1, for every scheduler and mutex
state; when the mutex is not locked (state = 0) it leaves the mutex (lock
bit and parked waiter) and the thread table unchanged, wakes nobody, and
restores the prior scheduler activity state. -/
theorem mutex_unlock_always_returns_one (s : State) (m : MutexState) :
    (unlock s m).ret = 1 ∧
    (m.state = 0 →
      (unlock s m).mutex = m ∧
      (unlock s m).threads.thread = s.thread ∧
      (unlock s m).yielded = false ∧
      (s.currentActive ≠ -1 → (unlock s m).threads.currentActive = s.currentActive)) := by
  constructor
  · by_cases h1 : m.state = 1 <;> by_cases hw : m.waitthread ≥ 0 <;>
      simp [unlock, stop, start, h1, hw]
  · intro h0
    have h1 : ¬ (m.state = 1) := by omega
    refine ⟨?_, ?_, ?_, ?_⟩ <;> simp [unlock, stop, start, h1]
    intro hact
    simp [hact]

/-- Witness for C10 at concrete inputs. -/
theorem mutex_unlock_always_returns_one_witness :
    (unlock baseState { state := 0, waitthread := 5, waitcount := 3 }).ret = 1 ∧
    (unlock baseState { state := 0, waitthread := 5, waitcount := 3 }).mutex
      = { state := 0, waitthread := 5, waitcount := 3 } ∧
    (unlock baseState { state := 0, waitthread := 5, waitcount := 3 }).yielded = false := by
  have h := mutex_unlock_always_returns_one baseState
    { state := 0, waitthread := 5, waitcount := 3 }
  have h2 := h.2 rfl
  exact ⟨h.1, h2.1, h2.2.2.1⟩

/-- Field-level consequences of getNextThread when the priority scan selects
slot `i`, stated against an abbreviation `th0` of the sp-updated table. -/
theorem getNextThread_prio_fields (s : State) (th0 : Nat → ThreadInfo) (i : Nat)
    (hth0 : th0 = updAt s.thread s.current_thread
      { s.thread s.current_thread with sp := s.currentSP })
    (h : prioScan th0 s.current_thread 0 = some i) :
    (getNextThread s).current_thread = i ∧
    (getNextThread s).currentCount = (th0 i).ticks ∧
    (getNextThread s).thread = updAt th0 i { th0 i with priority := 0 } := by
  subst hth0
  rw [getNextThread_prio s i h]
  exact ⟨rfl, rfl, rfl⟩

/-- Field-level consequences of getNextThread when the priority scan comes up
empty, stated against an abbreviation `th0` of the sp-updated table. -/
theorem getNextThread_rr_fields (s : State) (th0 : Nat → ThreadInfo)
    (hth0 : th0 = updAt s.thread s.current_thread
      { s.thread s.current_thread with sp := s.currentSP })
    (h : prioScan th0 s.current_thread 0 = none) :
    (getNextThread s).current_thread = rrScan th0 (s.current_thread + 1) ∧
    (getNextThread s).currentCount = (th0 (rrScan th0 (s.current_thread + 1))).ticks ∧
    (getNextThread s).thread = th0 := by
  subst hth0
  rw [getNextThread_rr s h]
  exact ⟨rfl, rfl, rfl⟩

/-! ## C4: round-robin fallback selection -/

/-- C4: when no priority boost is pending, getNextThread scans forward from
current_thread + 1, wrapping at MAX_THREADS back to slot 0, picks the first
RUNNING slot found, and loads that slot's ticks as the new tick budget; the
scan (a total function here) terminates, and under the precondition that
slot 0 is RUNNING the chosen slot is always RUNNING. -/
theorem round_robin_fallback (s : State)
    (h0 : (s.thread 0).flags = Flag.RUNNING)
    (hnp : ∀ j, j < MAX_THREADS → (s.thread j).priority = 0) :
    (getNextThread s).current_thread < MAX_THREADS ∧
    (s.thread (getNextThread s).current_thread).flags = Flag.RUNNING ∧
    (getNextThread s).currentCount = (s.thread (getNextThread s).current_thread).ticks ∧
    (∀ i, s.current_thread + 1 ≤ i → i < (getNextThread s).current_thread →
      (s.thread i).flags ≠ Flag.RUNNING) ∧
    ((getNextThread s).current_thread < s.current_thread + 1 →
      (getNextThread s).current_thread = 0 ∧
      ∀ i, s.current_thread + 1 ≤ i → i < MAX_THREADS → (s.thread i).flags ≠ Flag.RUNNING) := by
  set th0 := updAt s.thread s.current_thread
    { s.thread s.current_thread with sp := s.currentSP } with hth0
  have hpres : ∀ j, (th0 j).flags = (s.thread j).flags ∧
      (th0 j).priority = (s.thread j).priority ∧
      (th0 j).ticks = (s.thread j).ticks := by
    intro j
    rw [hth0]
    exact updAt_sp_fields s.thread s.current_thread s.currentSP j
  have hnone : prioScan th0 s.current_thread 0 = none :=
    prioScan_none _ _ (fun i hi => by rw [(hpres i).2.1]; exact hnp i hi) 0
  obtain ⟨hct, hcc, -⟩ := getNextThread_rr_fields s th0 hth0 hnone
  rw [hct, hcc]
  rcases rrScan_spec th0 (s.current_thread + 1) with hl | hr
  · obtain ⟨hrun, hle, hlt, hfirst⟩ := hl
    refine ⟨hlt, ?_, (hpres _).2.2, ?_, ?_⟩
    · rw [← (hpres _).1]
      exact hrun
    · intro i h1 h2
      rw [← (hpres i).1]
      exact hfirst i h1 h2
    · intro hlt2
      exact absurd (Nat.lt_of_lt_of_le hlt2 hle) (Nat.lt_irrefl _)
  · obtain ⟨hz, hall⟩ := hr
    rw [hz]
    refine ⟨by decide, h0, ?_, ?_, ?_⟩
    · rw [(hpres 0).2.2]
    · intro i h1 h2
      exact absurd h2 (by omega)
    · intro _
      refine ⟨rfl, fun i h1 h2 => ?_⟩
      rw [← (hpres i).1]
      exact hall i h1 h2

/-- Concrete state for the C4 witness: slots 0 and 6 RUNNING, current
thread 2, no boosts pending. -/
def rrState : State :=
  { baseState with
      thread := fun i =>
        if i = 0 ∨ i = 6 then { baseInfo with flags := Flag.RUNNING, ticks := 3 }
        else baseInfo,
      current_thread := 2 }

/-- Witness for C4 at a concrete state. -/
theorem round_robin_fallback_witness :
    ((rrState.thread 0).flags = Flag.RUNNING ∧
     (∀ j, j < MAX_THREADS → (rrState.thread j).priority = 0)) ∧
    ((getNextThread rrState).current_thread < MAX_THREADS ∧
     (rrState.thread (getNextThread rrState).current_thread).flags = Flag.RUNNING) := by
  have h := round_robin_fallback rrState (by decide) (by decide)
  exact ⟨⟨by decide, by decide⟩, h.1, h.2.1⟩

/-! ## C1: one-shot priority boost -/

/-- C1 (amended): after setPriority(id, k) with k non-zero, if the CURRENT
thread is RUNNING (the source's scan gate tests the current thread, not the
candidate) and no other slot holds a boost, the next getNextThread selects
slot id, loads thread[id].ticks -- not k -- as the next tick budget, and
clears thread[id].priority; every boost then being clear, any selection run
from the resulting thread table finds no priority candidate and proceeds by
the round-robin scan. -/
theorem priority_boost_one_shot_amended (s : State) (id k : Nat)
    (hid : id < MAX_THREADS)
    (hrun : (s.thread s.current_thread).flags = Flag.RUNNING)
    (hk : k ≠ 0)
    (hothers : ∀ j, j < MAX_THREADS → (s.thread j).priority = 0) :
    (getNextThread (setPriority s (id : Int) k)).current_thread = id ∧
    (getNextThread (setPriority s (id : Int) k)).currentCount = (s.thread id).ticks ∧
    (∀ j, j < MAX_THREADS →
      ((getNextThread (setPriority s (id : Int) k)).thread j).priority = 0) ∧
    (∀ s3 : State, s3.thread = (getNextThread (setPriority s (id : Int) k)).thread →
      (getNextThread s3).current_thread
        = rrScan (updAt s3.thread s3.current_thread
            { s3.thread s3.current_thread with sp := s3.currentSP })
            (s3.current_thread + 1)) := by
  have hne : ¬ ((id : Int) = -1) := by omega
  have hsetid : setPriority s (id : Int) k
      = { s with thread := updAt s.thread id { s.thread id with priority := k } } := by
    simp [setPriority, hne]
  rw [hsetid]
  have hpresP := fun j => updAt_priority_fields s.thread id k j
  set t : State := { s with thread := updAt s.thread id { s.thread id with priority := k } }
    with hts
  set th0 := updAt t.thread t.current_thread
    { t.thread t.current_thread with sp := t.currentSP } with hth0
  have hpres0 : ∀ j, (th0 j).flags = (t.thread j).flags ∧
      (th0 j).priority = (t.thread j).priority ∧
      (th0 j).ticks = (t.thread j).ticks := by
    intro j
    rw [hth0]
    exact updAt_sp_fields t.thread t.current_thread t.currentSP j
  have htthread : ∀ j, (t.thread j).flags = (s.thread j).flags ∧
      (t.thread j).ticks = (s.thread j).ticks ∧
      (t.thread j).priority = (if j = id then k else (s.thread j).priority) := by
    intro j
    exact hpresP j
  have hscan : prioScan th0 t.current_thread 0 = some id := by
    apply prioScan_first th0 t.current_thread id hid
    · rw [(hpres0 _).1, (htthread _).1]
      exact hrun
    · rw [(hpres0 id).2.1, (htthread id).2.2]
      simp [hk]
    · intro j hj
      rw [(hpres0 j).2.1, (htthread j).2.2]
      have hjne : j ≠ id := by omega
      simp only [hjne, if_false]
      exact hothers j (by omega)
  obtain ⟨hct, hcc, hthr⟩ := getNextThread_prio_fields t th0 id hth0 hscan
  have hclear : ∀ j, j < MAX_THREADS → ((getNextThread t).thread j).priority = 0 := by
    intro j hj
    rw [hthr]
    by_cases hji : j = id
    · subst hji
      rw [updAt_same]
    · rw [updAt_other _ _ _ _ hji, (hpres0 j).2.1, (htthread j).2.2]
      simp only [hji, if_false]
      exact hothers j hj
  refine ⟨hct, ?_, hclear, ?_⟩
  · rw [hcc, (hpres0 id).2.2, (htthread id).2.1]
  · intro s3 hs3
    have hpres3 := fun j => updAt_sp_fields s3.thread s3.current_thread s3.currentSP j
    have hnone : prioScan (updAt s3.thread s3.current_thread
        { s3.thread s3.current_thread with sp := s3.currentSP }) s3.current_thread 0 = none := by
      apply prioScan_none
      intro i hi
      rw [(hpres3 i).2.1, hs3]
      exact hclear i hi
    exact (getNextThread_rr_fields s3 _ rfl hnone).1

/-- Concrete state for the C1 counterexample and witness: slot 0 current and
RUNNING with ticks 9, slot 5 RUNNING with ticks 7, no boosts pending. -/
def prioState : State :=
  { baseState with
      thread := fun i =>
        if i = 0 then { baseInfo with flags := Flag.RUNNING, ticks := 9 }
        else if i = 5 then { baseInfo with flags := Flag.RUNNING, ticks := 7 }
        else baseInfo }

/-- Concrete state for the C1 counterexample: the current thread (slot 2) is
SUSPENDED -- as happens when a thread suspends itself on a mutex and yields
-- while slot 5 is RUNNING and holds a pending boost of 20. -/
def prioStateSusp : State :=
  { baseState with
      thread := fun i =>
        if i = 0 then { baseInfo with flags := Flag.RUNNING, ticks := 9 }
        else if i = 2 then { baseInfo with flags := Flag.SUSPENDED }
        else if i = 5 then { baseInfo with flags := Flag.RUNNING, ticks := 7, priority := 20 }
        else baseInfo,
      current_thread := 2 }

/-- C1 counterexample: the claim as stated is false on the code.  (a) After
set_priority(5, 20) with slot 5 runnable (ticks 7), the next selection does
choose slot 5 but loads tick budget 7 = thread[5].ticks, not k = 20.
(b) With the current thread SUSPENDED and boosted slot 5 runnable, the
selection reaches slot 5 only through round-robin and does NOT clear
thread[5].priority, so the boost is not consumed one-shot as claimed. -/
theorem priority_boost_counterexample :
    ((getNextThread (setPriority prioState 5 20)).current_thread = 5 ∧
     (getNextThread (setPriority prioState 5 20)).currentCount = 7 ∧
     (7 : Nat) ≠ 20) ∧
    ((prioStateSusp.thread 5).flags = Flag.RUNNING ∧
     (prioStateSusp.thread 5).priority = 20 ∧
     (getNextThread prioStateSusp).current_thread = 5 ∧
     ((getNextThread prioStateSusp).thread 5).priority = 20 ∧
     (20 : Nat) ≠ 0) := by
  constructor
  · have hscan : prioScan (updAt (setPriority prioState 5 20).thread
        (setPriority prioState 5 20).current_thread
        { (setPriority prioState 5 20).thread
            (setPriority prioState 5 20).current_thread
          with sp := (setPriority prioState 5 20).currentSP })
        (setPriority prioState 5 20).current_thread 0 = some 5 := by
      simp [prioScan, MAX_THREADS, updAt, setPriority, prioState, baseState, baseInfo]
    obtain ⟨hct, hcc, -⟩ :=
      getNextThread_prio_fields (setPriority prioState 5 20) _ 5 rfl hscan
    refine ⟨hct, ?_, by decide⟩
    rw [hcc]
    simp [updAt, setPriority, prioState, baseState, baseInfo]
  · have hnone : prioScan (updAt prioStateSusp.thread prioStateSusp.current_thread
        { prioStateSusp.thread prioStateSusp.current_thread
          with sp := prioStateSusp.currentSP })
        prioStateSusp.current_thread 0 = none := by
      simp [prioScan, MAX_THREADS, updAt, prioStateSusp, baseState, baseInfo]
    obtain ⟨hct, hcc, hthr⟩ := getNextThread_rr_fields prioStateSusp _ rfl hnone
    have hrr : rrScan (updAt prioStateSusp.thread prioStateSusp.current_thread
        { prioStateSusp.thread prioStateSusp.current_thread
          with sp := prioStateSusp.currentSP }) (prioStateSusp.current_thread + 1) = 5 := by
      simp [rrScan, MAX_THREADS, updAt, prioStateSusp, baseState, baseInfo]
    refine ⟨by decide, by decide, ?_, ?_, by decide⟩
    · rw [hct, hrr]
    · rw [hthr]
      simp [updAt, prioStateSusp, baseState, baseInfo]

/-- Witness for the amended C1 at a concrete state. -/
theorem priority_boost_one_shot_amended_witness :
    (5 < MAX_THREADS ∧
     (prioState.thread prioState.current_thread).flags = Flag.RUNNING ∧
     (20 : Nat) ≠ 0 ∧
     (∀ j, j < MAX_THREADS → (prioState.thread j).priority = 0)) ∧
    ((getNextThread (setPriority prioState ((5 : Nat) : Int) 20)).current_thread = 5 ∧
     (getNextThread (setPriority prioState ((5 : Nat) : Int) 20)).currentCount = 7 ∧
     ((getNextThread (setPriority prioState ((5 : Nat) : Int) 20)).thread 5).priority = 0) := by
  have h := priority_boost_one_shot_amended prioState 5 20 (by decide) (by decide)
    (by decide) (by decide)
  refine ⟨⟨by decide, by decide, by decide, by decide⟩, h.1, ?_, h.2.2.1 5 (by decide)⟩
  rw [h.2.1]
  decide

/-! ## C5: addThread slot exhaustion -/

/-- C5 (amended): on slot exhaustion addThread returns -1 with the thread
table and thread_count unchanged, but the scheduler activity state is
restored only when the prior value was STARTED (a prior STOPPED is also left
STOPPED, which coincides with restoration); a prior FIRST_RUN is left
STOPPED.  On success addThread returns the lowest-indexed free slot and the
activity state ends STARTED when the prior value was STARTED or FIRST_RUN,
otherwise it is restored. -/
theorem addThread_behavior_amended (s : State) (p arg : Nat) (ss : Int)
    (stk al del : Nat) :
    ((∀ i, 1 ≤ i → i < MAX_THREADS →
        (s.thread i).flags ≠ Flag.ENDED ∧ (s.thread i).flags ≠ Flag.EMPTY) →
      (addThread s p arg ss stk al del).ret = -1 ∧
      (addThread s p arg ss stk al del).state.thread = s.thread ∧
      (addThread s p arg ss stk al del).state.thread_count = s.thread_count ∧
      (addThread s p arg ss stk al del).state.currentActive =
        (if s.currentActive = STARTED then STARTED else STOPPED)) ∧
    (∀ id, 1 ≤ id → id < MAX_THREADS →
      ((s.thread id).flags = Flag.ENDED ∨ (s.thread id).flags = Flag.EMPTY) →
      (∀ i, 1 ≤ i → i < id →
        (s.thread i).flags ≠ Flag.ENDED ∧ (s.thread i).flags ≠ Flag.EMPTY) →
      (addThread s p arg ss stk al del).ret = (id : Int) ∧
      ((addThread s p arg ss stk al del).state.thread id).flags = Flag.RUNNING ∧
      (addThread s p arg ss stk al del).state.thread_count = s.thread_count + 1 ∧
      (addThread s p arg ss stk al del).state.currentActive =
        (if s.currentActive = STARTED ∨ s.currentActive = FIRST_RUN
         then STARTED else s.currentActive)) := by
  constructor
  · intro hfull
    have hff : findFree (stop s).1.thread 1 = none := findFree_none _ hfull
    simp only [addThread, hff]
    by_cases hst : s.currentActive = STARTED
    · simp [stop, start, hst]
    · simp [stop, start, hst]
  · intro id hid1 hid hfree hbelow
    have hff : findFree (stop s).1.thread 1 = some id :=
      findFree_first _ id hid1 hid hfree hbelow
    simp only [addThread, hff]
    by_cases hst : s.currentActive = STARTED ∨ s.currentActive = FIRST_RUN
    · simp [stop, start, hst, updAt_same]
    · simp [stop, start, hst, updAt_same]

/-- Concrete state for the C5 counterexample and witness: every slot
occupied (RUNNING), prior scheduler activity state FIRST_RUN. -/
def fullState : State :=
  { baseState with
      thread := fun _ => { baseInfo with flags := Flag.RUNNING },
      currentActive := FIRST_RUN }

/-- Concrete state for the C5 witness: slots 1 and 2 occupied, slot 3 the
lowest free slot, prior scheduler activity state FIRST_RUN. -/
def freeState : State :=
  { baseState with
      thread := fun i => if i < 3 then { baseInfo with flags := Flag.RUNNING }
                         else baseInfo,
      currentActive := FIRST_RUN }

/-- C5 counterexample: with every slot occupied and the prior scheduler
activity state FIRST_RUN, addThread returns -1 but leaves the activity state
STOPPED -- it is not restored to FIRST_RUN as the claim states. -/
theorem addThread_exhaustion_counterexample :
    fullState.currentActive = FIRST_RUN ∧
    (addThread fullState 0 0 (-1) 0 4096 7).ret = -1 ∧
    (addThread fullState 0 0 (-1) 0 4096 7).state.currentActive = STOPPED ∧
    STOPPED ≠ FIRST_RUN := by
  have hff : findFree (stop fullState).1.thread 1 = none := by
    apply findFree_none
    intro i h1 h2
    constructor <;> simp [stop, fullState, baseState, baseInfo]
  refine ⟨by decide, ?_, ?_, by decide⟩
  · simp only [addThread]
    rw [hff]
  · simp only [addThread]
    rw [hff]
    simp [stop, start, fullState, baseState, STARTED, FIRST_RUN, STOPPED]

/-- Witness for the amended C5, covering both the exhaustion branch (at
fullState, prior FIRST_RUN left STOPPED) and the success branch (at
freeState, lowest free slot 3 returned, FIRST_RUN promoted to STARTED). -/
theorem addThread_behavior_amended_witness :
    ((∀ i, 1 ≤ i → i < MAX_THREADS →
        (fullState.thread i).flags ≠ Flag.ENDED ∧
        (fullState.thread i).flags ≠ Flag.EMPTY) ∧
     (addThread fullState 0 0 (-1) 0 4096 7).ret = -1 ∧
     (addThread fullState 0 0 (-1) 0 4096 7).state.currentActive = STOPPED) ∧
    ((freeState.thread 3).flags = Flag.EMPTY ∧
     (addThread freeState 0 0 (-1) 0 4096 7).ret = 3 ∧
     (addThread freeState 0 0 (-1) 0 4096 7).state.currentActive = STARTED) := by
  have hfull := (addThread_behavior_amended fullState 0 0 (-1) 0 4096 7).1 (by decide)
  have hfree := (addThread_behavior_amended freeState 0 0 (-1) 0 4096 7).2 3
    (by decide) (by decide) (by decide) (by decide)
  refine ⟨⟨by decide, hfull.1, ?_⟩, by decide, hfree.1, ?_⟩
  · rw [hfull.2.2.2]
    decide
  · rw [hfree.2.2.2]
    decide

/-! ## C2: mutex lock timeout semantics -/

/-- With timeout_ms = 0 the blocking loop never returns 0. -/
theorem lockLoop_no_timeout (start : Nat) :
    ∀ trace, lockLoop 0 start trace ≠ some 0 := by
  intro trace
  induction trace with
  | nil => simp [lockLoop]
  | cons hd tl ih =>
      obtain ⟨now, acq⟩ := hd
      by_cases ha : acq
      · simp [lockLoop, ha]
      · simp [lockLoop, ha]
        exact ih

/-- With a non-zero timeout the blocking loop returns 0 exactly when the
deadline passes without the mutex being acquired. -/
theorem lockLoop_zero_iff (timeout start : Nat) (ht : timeout ≠ 0) :
    ∀ trace, (lockLoop timeout start trace = some 0 ↔
      deadlinePassesUnacquired timeout start trace = true) := by
  intro trace
  induction trace with
  | nil => simp [lockLoop, deadlinePassesUnacquired]
  | cons hd tl ih =>
      obtain ⟨now, acq⟩ := hd
      by_cases ha : acq
      · simp [lockLoop, deadlinePassesUnacquired, ha]
      · by_cases hd2 : usub32 now start > timeout
        · simp [lockLoop, deadlinePassesUnacquired, ha, hd2, ht]
        · simp [lockLoop, deadlinePassesUnacquired, ha, hd2, ht]
          exact ih

/-- The blocking loop returns 1 exactly when the mutex is acquired at some
iteration, every earlier iteration having stayed inside the deadline. -/
theorem lockLoop_one_iff (timeout start : Nat) :
    ∀ trace, (lockLoop timeout start trace = some 1 ↔
      acquiresLock timeout start trace = true) := by
  intro trace
  induction trace with
  | nil => simp [lockLoop, acquiresLock]
  | cons hd tl ih =>
      obtain ⟨now, acq⟩ := hd
      by_cases ha : acq
      · simp [lockLoop, acquiresLock, ha]
      · by_cases hto : timeout = 0
        · subst hto
          simp [lockLoop, acquiresLock, ha]
          exact ih
        · by_cases hd2 : usub32 now start > timeout
          · have hd3 : ¬ (usub32 now start ≤ timeout) := by omega
            simp [lockLoop, acquiresLock, ha, hd2, hto, hd3]
          · have hd3 : usub32 now start ≤ timeout := by omega
            simp [lockLoop, acquiresLock, ha, hd2, hto, hd3]
            exact ih

/-- C2: Mutex::lock(timeout_ms) over any observation trace: with
timeout_ms = 0 it never returns 0; with timeout_ms non-zero it returns 0
exactly when the fast path failed and the deadline passes without the mutex
being acquired; and it returns 1 exactly when the mutex is acquired (on the
fast path or at some loop iteration inside the deadline). -/
theorem mutex_lock_timeout_semantics (firstTry : Bool) (timeout_ms start : Nat)
    (trace : List (Nat × Bool)) :
    (timeout_ms = 0 → lockSim firstTry timeout_ms start trace ≠ some 0) ∧
    (timeout_ms ≠ 0 →
      (lockSim firstTry timeout_ms start trace = some 0 ↔
        firstTry = false ∧ deadlinePassesUnacquired timeout_ms start trace = true)) ∧
    (lockSim firstTry timeout_ms start trace = some 1 ↔
      (firstTry = true ∨ acquiresLock timeout_ms start trace = true)) := by
  refine ⟨?_, ?_, ?_⟩
  · intro h0
    subst h0
    by_cases hf : firstTry
    · simp [lockSim, hf]
    · simp [lockSim, hf]
      exact lockLoop_no_timeout start trace
  · intro ht
    by_cases hf : firstTry
    · simp [lockSim, hf]
    · simp [lockSim, hf]
      exact lockLoop_zero_iff timeout_ms start ht trace
  · by_cases hf : firstTry
    · simp [lockSim, hf]
    · simp [lockSim, hf]
      exact lockLoop_one_iff timeout_ms start trace

/-- Witness for C2 at concrete traces: a failed fast path with the deadline
passing after 10 ms against a 5 ms timeout returns 0; a successful fast path
returns 1. -/
theorem mutex_lock_timeout_semantics_witness :
    ((5 : Nat) ≠ 0 ∧
     lockSim false 5 0 [(2, false), (10, false)] = some 0 ∧
     deadlinePassesUnacquired 5 0 [(2, false), (10, false)] = true) ∧
    lockSim true 5 0 [] = some 1 := by
  have h := (mutex_lock_timeout_semantics false 5 0 [(2, false), (10, false)]).2.1
    (by decide)
  have h2 := (mutex_lock_timeout_semantics true 5 0 []).2.2
  exact ⟨⟨by decide, h.mpr ⟨rfl, by decide⟩, by decide⟩, h2.mpr (Or.inl rfl)⟩

/-! ## C7: wait semantics -/

/-- With timeout_ms = 0 the wait loop never returns -1 (for a target id
other than -1). -/
theorem waitLoop_no_timeout (id : Int) (hid : id ≠ -1) (start : Nat) :
    ∀ trace, waitLoop id 0 start trace ≠ some (-1) := by
  intro trace
  induction trace with
  | nil => simp [waitLoop]
  | cons hd tl ih =>
      obtain ⟨now, f⟩ := hd
      by_cases hf : f = Flag.RUNNING
      · simp [waitLoop, hf]
        exact ih
      · simp [waitLoop, hf, hid]

/-- With a non-zero timeout the wait loop returns -1 exactly when some
iteration observes the deadline exceeded, every earlier iteration having
observed RUNNING inside the deadline. -/
theorem waitLoop_neg_iff (id : Int) (hid : id ≠ -1) (timeout start : Nat)
    (ht : timeout ≠ 0) :
    ∀ trace, (waitLoop id timeout start trace = some (-1) ↔
      waitTimesOut timeout start trace = true) := by
  intro trace
  induction trace with
  | nil => simp [waitLoop, waitTimesOut]
  | cons hd tl ih =>
      obtain ⟨now, f⟩ := hd
      by_cases hd2 : usub32 now start > timeout
      · simp [waitLoop, waitTimesOut, hd2, ht]
      · by_cases hf : f = Flag.RUNNING
        · simp [waitLoop, waitTimesOut, hd2, ht, hf]
          exact ih
        · simp [waitLoop, waitTimesOut, hd2, ht, hf, hid]

/-- The wait loop returns the id exactly when some iteration inside the
deadline observes flags different from RUNNING, every earlier iteration
having observed RUNNING inside the deadline. -/
theorem waitLoop_id_iff (id : Int) (hid : id ≠ -1) (timeout start : Nat) :
    ∀ trace, (waitLoop id timeout start trace = some id ↔
      waitSucceeds timeout start trace = true) := by
  intro trace
  induction trace with
  | nil => simp [waitLoop, waitSucceeds]
  | cons hd tl ih =>
      obtain ⟨now, f⟩ := hd
      by_cases hcond : timeout ≠ 0 ∧ usub32 now start > timeout
      · have hd3 : ¬ (timeout = 0 ∨ usub32 now start ≤ timeout) := by omega
        have hne : (-1 : Int) ≠ id := fun h => hid h.symm
        simp [waitLoop, waitSucceeds, hcond, hd3, hne]
      · have hd3 : timeout = 0 ∨ usub32 now start ≤ timeout := by omega
        by_cases hf : f = Flag.RUNNING
        · simp [waitLoop, waitSucceeds, hcond, hd3, hf]
          exact ih
        · simp [waitLoop, waitSucceeds, hcond, hd3, hf]

/-- C7 (amended): each iteration of Threads::wait checks the deadline BEFORE
reading the target's flags, so with timeout_ms non-zero it returns -1 as
soon as an iteration observes the deadline exceeded -- even if the target's
flags already differ from RUNNING at that iteration; it returns id when an
iteration inside the deadline observes flags different from RUNNING; and
with timeout_ms = 0 the deadline is disabled and -1 is never returned. -/
theorem wait_semantics_amended (id : Int) (timeout_ms start : Nat)
    (trace : List (Nat × Flag)) (hid : id ≠ -1) :
    (timeout_ms = 0 → waitLoop id timeout_ms start trace ≠ some (-1)) ∧
    (waitLoop id timeout_ms start trace = some (-1) ↔
      timeout_ms ≠ 0 ∧ waitTimesOut timeout_ms start trace = true) ∧
    (waitLoop id timeout_ms start trace = some id ↔
      waitSucceeds timeout_ms start trace = true) := by
  refine ⟨?_, ?_, waitLoop_id_iff id hid timeout_ms start trace⟩
  · intro h0
    subst h0
    exact waitLoop_no_timeout id hid start trace
  · by_cases ht : timeout_ms = 0
    · subst ht
      simp [waitLoop_no_timeout id hid start trace]
    · simp only [ht, ne_eq, not_false_iff, true_and]
      exact waitLoop_neg_iff id hid timeout_ms start ht trace

/-- C7 counterexample: with timeout 5 and a single loop iteration observing
time 11 and the target already ENDED, wait returns -1, not the id -- the
deadline check precedes the flags check, so the claim's "returns id as soon
as the target's flags differ from RUNNING" / "returns -1 only while the
target remains RUNNING" is false as stated. -/
theorem wait_timeout_counterexample :
    waitLoop 3 5 0 [(11, Flag.ENDED)] = some (-1) ∧
    Flag.ENDED ≠ Flag.RUNNING ∧
    ((-1 : Int) ≠ 3) := by
  exact ⟨by decide, by decide, by decide⟩

/-- Witness for the amended C7 at concrete traces. -/
theorem wait_semantics_amended_witness :
    ((3 : Int) ≠ -1) ∧
    waitLoop 3 5 0 [(1, Flag.RUNNING), (2, Flag.ENDED)] = some 3 ∧
    waitSucceeds 5 0 [(1, Flag.RUNNING), (2, Flag.ENDED)] = true := by
  have h := wait_semantics_amended 3 5 0 [(1, Flag.RUNNING), (2, Flag.ENDED)]
    (by decide)
  exact ⟨by decide, h.2.2.mpr (by decide), by decide⟩

end TeensyThreads
